import Mathlib

/-!
# Verification of the GitFlow `ROICalculator` core

Shallow embedding of `src/unnamed/part_002` (`ROICalculator`): the ROI
computation `calculateROI` and the bottleneck detector `identifyBottlenecks`,
together with their private helpers `calculateCICDSavings` and
`calculateAverageMetrics`.

Embedding conventions:
* JavaScript numbers are modelled as exact rationals `ℚ`; none of the claims
  hinge on IEEE-754 rounding.
* A database field that may be SQL `NULL` / absent is modelled as `Option ℚ`.
* The JavaScript `x || d` default on a (non-NaN) number is explicit: it yields
  `d` exactly when `x` is `0` or absent, hence `jsOr` / `jsOrOpt` below. This
  applies where the value really is a JS number: the `parseFloat`-ed
  `avgResolutionMinutes` and the `INTEGER` columns of the raw
  `engineering_metrics` rows (node-postgres parses `INTEGER` to numbers). The
  unparsed `AVG(cycle_time)` aggregate, by contrast, arrives as a pg
  `NUMERIC` string, which is truthy even when it reads `"0.00…"`; there the
  `||` default fires only on SQL `NULL`, and the later subtraction coerces
  the string to its numeric value, hence plain `Option.getD` in
  `calculateCICDSavings`.
* The three awaited fetches of `calculateROI` are passed in as `Except`
  values; a thrown fetch error is an `Except.error` and the `try/catch` that
  logs and rethrows propagates it unchanged, so `calculateROI` sequences the
  three results with `do`-bind over an abstract error type `ε`.
* The unconditional division by `rows.length` in `calculateAverageMetrics`
  (which in JavaScript would poison the result with `NaN` on an empty list)
  is modelled by returning `Option`: `none` exactly when the divisor is zero.
* `Bottleneck.description` is a presentation string built with `toFixed`
  numeric formatting; no claim concerns it and it is omitted from the record.
  The constant `recommendation` strings are kept verbatim.
-/

namespace GitFlow

/-- JavaScript `x || d` for a present, non-NaN number `x`: the default `d` is
taken exactly when `x = 0` (the only falsy number besides NaN). -/
def jsOr (x d : ℚ) : ℚ := if x = 0 then d else x

/-- JavaScript `x || d` where `x` may also be `null`/`undefined` (absent). -/
def jsOrOpt (x : Option ℚ) (d : ℚ) : ℚ :=
  match x with
  | none => d
  | some v => if v = 0 then d else v

/-- `DEFAULT_HOURLY_COST = 75` — average developer hourly cost (USD). -/
def DEFAULT_HOURLY_COST : ℚ := 75

/-- Result of `getConflictMetrics`: parsed aggregate over `merge_conflicts`
rows in the window (SQL-`NULL` aggregates already replaced by the parse-time
defaults `45` and `0.85`, so all fields are plain numbers here). -/
structure ConflictMetrics where
  totalConflicts : ℕ
  avgResolutionMinutes : ℚ
  resolutionRate : ℚ
deriving DecidableEq, Repr

/-- Result of `getPredictionMetrics`: parsed aggregate over `ml_predictions`
rows in the window. -/
structure PredictionMetrics where
  totalPredictions : ℕ
  accuracyRate : ℚ
  preventedFailures : ℕ
deriving DecidableEq, Repr

/-- Result of `getEngineeringMetrics`: the raw first result row
(`result.rows[0] || {}`), whose aggregate columns may each be absent/`NULL`. -/
structure EngMetrics where
  avg_cycle_time : Option ℚ
  avg_lead_time : Option ℚ
  avg_deploy_freq : Option ℚ
deriving DecidableEq, Repr

/-- `ROICalculator.calculateCICDSavings`: baseline cycle time 24 h,
`actualCycleTime = engineeringData.avg_cycle_time || baselineCycleTime`,
`improvement = Math.max(0, baselineCycleTime - actualCycleTime)`, times 4
deployments per week. `avg_cycle_time` is the unparsed `AVG(cycle_time)`
aggregate — a pg `NUMERIC` string, truthy even for a zero average — so the
`||` default is taken only when the aggregate is SQL `NULL` (no rows), and
the subtraction coerces the string to its numeric value: `Option.getD`, not
the zero-falsy `jsOrOpt`. -/
def calculateCICDSavings (engineeringData : EngMetrics) : ℚ :=
  let baselineCycleTime : ℚ := 24
  let actualCycleTime := engineeringData.avg_cycle_time.getD baselineCycleTime
  let improvement := max 0 (baselineCycleTime - actualCycleTime)
  improvement * 4

/-- The `ROIMetrics` record returned by `calculateROI`. -/
structure ROIMetrics where
  totalConflictsAvoided : ℤ
  avgConflictResolutionTime : ℚ
  timesSaved : ℚ
  costSavings : ℚ
  developerHourlyCost : ℚ
  preventedBuildFailures : ℕ
  cicdTimeSaved : ℚ
  totalROI : ℚ
  projectedAnnualSavings : ℚ
deriving DecidableEq, Repr

/-- The pure arithmetic part of `ROICalculator.calculateROI`, i.e. everything
after the three fetches have produced their data (source lines 52–77). -/
def computeROIMetrics (timeframeDays : ℤ) (conflictData : ConflictMetrics)
    (predictionData : PredictionMetrics) (engineeringData : EngMetrics) :
    ROIMetrics :=
  let conflictsAvoided : ℤ :=
    ⌊(predictionData.totalPredictions : ℚ) * predictionData.accuracyRate⌋
  let avgResolutionTime := jsOr conflictData.avgResolutionMinutes 45
  let timesSavedHours := (conflictsAvoided : ℚ) * avgResolutionTime / 60
  let hourlyCost := DEFAULT_HOURLY_COST
  let costSavings := timesSavedHours * hourlyCost
  let cicdTimeSaved := calculateCICDSavings engineeringData
  let cicdCostSavings := cicdTimeSaved * (hourlyCost / 2)
  let totalCostSavings := costSavings + cicdCostSavings
  let projectedAnnualSavings := totalCostSavings / (timeframeDays : ℚ) * 365
  { totalConflictsAvoided := conflictsAvoided
    avgConflictResolutionTime := avgResolutionTime
    timesSaved := timesSavedHours
    costSavings := costSavings
    developerHourlyCost := hourlyCost
    preventedBuildFailures := predictionData.preventedFailures
    cicdTimeSaved := cicdTimeSaved
    totalROI := totalCostSavings
    projectedAnnualSavings := projectedAnnualSavings }

/-- `ROICalculator.calculateROI(repositoryId, timeframeDays)`: sequentially
awaits the conflict, prediction and engineering fetches (given here as
`Except` results over an abstract error type `ε`), then computes the metrics.
The surrounding `try/catch` only logs and rethrows, and there is no input
validation, so a failed fetch is the only failure and is propagated
unmodified. -/
def calculateROI {ε : Type} (timeframeDays : ℤ)
    (fetchConflict : Except ε ConflictMetrics)
    (fetchPrediction : Except ε PredictionMetrics)
    (fetchEngineering : Except ε EngMetrics) : Except ε ROIMetrics := do
  let conflictData ← fetchConflict
  let predictionData ← fetchPrediction
  let engineeringData ← fetchEngineering
  pure (computeROIMetrics timeframeDays conflictData predictionData
    engineeringData)

/-- One row of the `engineering_metrics` table as read by
`identifyBottlenecks`; each metric column may be `NULL`. -/
structure EngRow where
  code_review_time : Option ℚ
  cycle_time : Option ℚ
  pr_merge_time : Option ℚ
deriving DecidableEq, Repr

/-- The record built by `calculateAverageMetrics`: per-column means over the
fetched rows plus the hardcoded estimates `prsPerWeek = 20`,
`conflictRate = 0.12`, `avgConflictResolution = 45`. -/
structure AvgMetrics where
  code_review_time : ℚ
  cycle_time : ℚ
  pr_merge_time : ℚ
  prsPerWeek : ℚ
  conflictRate : ℚ
  avgConflictResolution : ℚ
deriving DecidableEq, Repr

/-- `ROICalculator.calculateAverageMetrics(rows)`: fold the rows summing each
column (`row.col || 0`), divide by `rows.length`, and attach the three
hardcoded estimates. The source divides unconditionally; on an empty list the
JavaScript result would be `NaN`-poisoned, modelled here as `none`. -/
def calculateAverageMetrics (rows : List EngRow) : Option AvgMetrics :=
  if rows.length = 0 then none
  else
    let sumReview := rows.foldl (fun acc r => acc + jsOrOpt r.code_review_time 0) 0
    let sumCycle := rows.foldl (fun acc r => acc + jsOrOpt r.cycle_time 0) 0
    let sumMerge := rows.foldl (fun acc r => acc + jsOrOpt r.pr_merge_time 0) 0
    some
      { code_review_time := sumReview / (rows.length : ℚ)
        cycle_time := sumCycle / (rows.length : ℚ)
        pr_merge_time := sumMerge / (rows.length : ℚ)
        prsPerWeek := 20
        conflictRate := 0.12
        avgConflictResolution := 45 }

/-- Kinds of `EngineeringBottleneck`. -/
inductive BottleneckType where
  | long_pr_review
  | merge_conflicts
  | slow_ci
  | delayed_deployments
deriving DecidableEq, Repr

/-- Qualitative impact tier of a bottleneck. -/
inductive Impact where
  | high
  | medium
  | low
deriving DecidableEq, Repr

/-- One `EngineeringBottleneck` finding (the `description` presentation
string is omitted, see the module comment). -/
structure Bottleneck where
  type : BottleneckType
  impact : Impact
  estimatedCost : ℚ
  recommendation : String
deriving DecidableEq, Repr

/-- The three threshold rules of `identifyBottlenecks` (source lines
109–142), applied in order to the averaged metrics; each pushes at most one
finding, so the result is the concatenation in fixed rule order. -/
def bottleneckRules (avgMetrics : AvgMetrics) : List Bottleneck :=
  (if avgMetrics.code_review_time > 240 then
    [{ type := BottleneckType.long_pr_review
       impact := if avgMetrics.code_review_time > 480 then Impact.high else Impact.medium
       estimatedCost :=
         (avgMetrics.code_review_time / 60 - 2) * DEFAULT_HOURLY_COST * avgMetrics.prsPerWeek
       recommendation := "Implement automated code review tools and set review SLAs" }]
  else []) ++
  (if avgMetrics.conflictRate > 0.15 then
    [{ type := BottleneckType.merge_conflicts
       impact := if avgMetrics.conflictRate > 0.25 then Impact.high else Impact.medium
       estimatedCost :=
         avgMetrics.conflictRate * avgMetrics.prsPerWeek *
           (avgMetrics.avgConflictResolution / 60) * DEFAULT_HOURLY_COST
       recommendation :=
         "Use GitFlow AI predictions to identify conflicts early and reduce branch lifetimes" }]
  else []) ++
  (if avgMetrics.cycle_time > 48 then
    [{ type := BottleneckType.slow_ci
       impact := Impact.high
       estimatedCost :=
         (avgMetrics.cycle_time - 24) / 24 * DEFAULT_HOURLY_COST * avgMetrics.prsPerWeek
       recommendation := "Optimize CI/CD pipeline and implement parallel testing" }]
  else [])

/-- `ROICalculator.identifyBottlenecks(repositoryId)` after the fetch of the
most recent 30 `engineering_metrics` rows (passed in as `rows`): return `[]`
immediately when no rows exist, otherwise average and apply the threshold
rules. The `Option` is `none` only if a division by zero were reached in
`calculateAverageMetrics` (the guard makes that impossible). -/
def identifyBottlenecks (rows : List EngRow) : Option (List Bottleneck) :=
  if rows.length = 0 then some []
  else (calculateAverageMetrics rows).map bottleneckRules

/-- Unfolding lemma: with all three fetches successful, `calculateROI` is
`computeROIMetrics` on the fetched data. -/
theorem calculateROI_ok {ε : Type} (d : ℤ) (c : ConflictMetrics)
    (p : PredictionMetrics) (g : EngMetrics) :
    calculateROI (ε := ε) d (Except.ok c) (Except.ok p) (Except.ok g) =
      Except.ok (computeROIMetrics d c p g) := rfl

/-- **C1.** Scenario A: `totalPredictions = 100`, `accuracyRate = 0.8`,
`avgResolutionMinutes = 45`, `hourlyCost = 75`, `avgCycleTimeHours = 24`,
`timeframeDays = 30` gives `conflictsAvoided = 80`, `timeSavedHours = 60`,
`costSavings = 4500`, `cicdTimeSavedHours = 0`, `totalSavings = 4500`,
`projectedAnnualSavings = 54750`, following the documented formulas. -/
theorem roi_scenario_a (tc pf : ℕ) (rr : ℚ) (lt df : Option ℚ) :
    (calculateROI (ε := Unit) 30
        (Except.ok ⟨tc, 45, rr⟩) (Except.ok ⟨100, 0.8, pf⟩)
        (Except.ok ⟨some 24, lt, df⟩)).map
      (fun r => (r.totalConflictsAvoided, r.timesSaved, r.costSavings,
        r.cicdTimeSaved, r.totalROI, r.projectedAnnualSavings)) =
      Except.ok (80, 60, 4500, 0, 4500, 54750) ∧
    DEFAULT_HOURLY_COST = 75 := by
  constructor
  · show Except.ok _ = _
    norm_num [computeROIMetrics, calculateCICDSavings, jsOr, jsOrOpt,
      DEFAULT_HOURLY_COST]
  · rfl

/-- **C2 counterexample.** The claim says a non-positive `timeframeDays`
fails fast with `InvalidInput` before any fetch. The code performs no such
validation: with `timeframeDays = -5` and all three fetches succeeding,
`calculateROI` returns a successful report instead of failing. -/
theorem roi_no_fast_fail_cex :
    calculateROI (ε := Unit) (-5) (Except.ok ⟨0, 45, 0.85⟩)
      (Except.ok ⟨0, 0.78, 0⟩) (Except.ok ⟨none, none, none⟩) =
      Except.ok ⟨0, 45, 0, 0, 75, 0, 0, 0, 0⟩ := by
  rw [calculateROI_ok]
  norm_num [computeROIMetrics, calculateCICDSavings, jsOr, jsOrOpt,
    DEFAULT_HOURLY_COST, ROIMetrics.mk.injEq]

/-- **C2 (amended).** If any of the three fetches fails, `calculateROI`
fails with the first failing fetch's error propagated to the caller
unmodified, and this propagation is the only failure mode: when all three
fetches succeed the call always succeeds. There is no `InvalidInput` fast
path; `timeframeDays` (of either sign) is never validated. -/
theorem roi_error_propagation {ε : Type} (d : ℤ) (e : ε) :
    (∀ p g, calculateROI d (Except.error e) p g = Except.error e) ∧
    (∀ c g, calculateROI d (Except.ok c) (Except.error e) g = Except.error e) ∧
    (∀ c p, calculateROI d (Except.ok c) (Except.ok p) (Except.error e) =
      Except.error e) ∧
    (∀ c p g, calculateROI (ε := ε) d (Except.ok c) (Except.ok p)
      (Except.ok g) = Except.ok (computeROIMetrics d c p g)) :=
  ⟨fun _ _ => rfl, fun _ _ => rfl, fun _ _ => rfl, fun _ _ _ => rfl⟩

/-- The CI/CD savings formula exactly as the spec states it:
`cicdTimeSavedHours = max(0, 24 − avgCycleTimeHours) × 4`. Kept separate
from the source-derived `calculateCICDSavings` for comparison. -/
def cicdSavingsSpec (avgCycleTimeHours : ℚ) : ℚ :=
  max 0 (24 - avgCycleTimeHours) * 4

/-- **C3.** For every `avgCycleTimeHours` supplied by the Metrics Source,
`cicdTimeSavedHours = max(0, 24 − avgCycleTimeHours) × 4`; in particular a
supplied average of `0` yields `96` — the `|| baselineCycleTime` default is
taken only when the aggregate is `NULL`, never for a supplied value. -/
theorem cicd_savings_formula (x : ℚ) (lt df : Option ℚ) :
    calculateCICDSavings ⟨some x, lt, df⟩ = cicdSavingsSpec x ∧
    calculateCICDSavings ⟨some 0, lt, df⟩ = 96 := by
  constructor
  · simp [calculateCICDSavings, cicdSavingsSpec]
  · norm_num [calculateCICDSavings]

/-- **C4 counterexample.** A window with 3 matching conflict rows supplies
`avgResolutionMinutes = 0`; the claim says that supplied value is used
unchanged (giving `timeSavedHours = 0`). The code's
`avgResolutionMinutes || 45` substitutes the default `45`, giving
`timeSavedHours = 80 × 45 / 60 = 60`. -/
theorem roi_resolution_default_cex :
    (computeROIMetrics 30 ⟨3, 0, 1⟩ ⟨100, 0.8, 0⟩
        ⟨none, none, none⟩).avgConflictResolutionTime = 45 ∧
    (computeROIMetrics 30 ⟨3, 0, 1⟩ ⟨100, 0.8, 0⟩
        ⟨none, none, none⟩).timesSaved = 60 := by
  constructor <;> norm_num [computeROIMetrics, jsOr, DEFAULT_HOURLY_COST]

/-- **C4 (amended).** The supplied `avgResolutionMinutes` is used unchanged
in `timeSavedHours = conflictsAvoided × avgResolutionMinutes / 60` exactly
when it is nonzero; the default `45` is substituted whenever the supplied
value is `0` — the `||` fallback cannot distinguish a supplied `0` from a
window with zero matching rows. -/
theorem roi_resolution_default (d : ℤ) (c : ConflictMetrics)
    (p : PredictionMetrics) (g : EngMetrics) :
    (c.avgResolutionMinutes ≠ 0 →
      (computeROIMetrics d c p g).avgConflictResolutionTime =
        c.avgResolutionMinutes ∧
      (computeROIMetrics d c p g).timesSaved =
        ((computeROIMetrics d c p g).totalConflictsAvoided : ℚ) *
          c.avgResolutionMinutes / 60) ∧
    (c.avgResolutionMinutes = 0 →
      (computeROIMetrics d c p g).avgConflictResolutionTime = 45) := by
  constructor
  · intro h
    constructor <;> simp [computeROIMetrics, jsOr, h]
  · intro h
    simp [computeROIMetrics, jsOr, h]

/-- Witness for `roi_resolution_default` with supplied
`avgResolutionMinutes = 30`. -/
theorem roi_resolution_default_witness :
    (computeROIMetrics 30 ⟨3, 30, 1⟩ ⟨100, 0.8, 0⟩
        ⟨none, none, none⟩).avgConflictResolutionTime = 30 ∧
    (computeROIMetrics 30 ⟨3, 30, 1⟩ ⟨100, 0.8, 0⟩
        ⟨none, none, none⟩).timesSaved =
      ((computeROIMetrics 30 ⟨3, 30, 1⟩ ⟨100, 0.8, 0⟩
        ⟨none, none, none⟩).totalConflictsAvoided : ℚ) * 30 / 60 :=
  (roi_resolution_default 30 ⟨3, 30, 1⟩ ⟨100, 0.8, 0⟩ ⟨none, none, none⟩).1
    (by norm_num)

/-- **C5.** Whenever `totalPredictions = 0`, the report has
`conflictsAvoided = 0` and `timeSavedHours = 0`, regardless of
`accuracyRate` (and of every other input). -/
theorem roi_zero_predictions (d : ℤ) (c : ConflictMetrics) (a : ℚ) (pf : ℕ)
    (g : EngMetrics) :
    (computeROIMetrics d c ⟨0, a, pf⟩ g).totalConflictsAvoided = 0 ∧
    (computeROIMetrics d c ⟨0, a, pf⟩ g).timesSaved = 0 := by
  simp [computeROIMetrics]

/-- The hardcoded estimates attached by `calculateAverageMetrics` to every
successfully averaged window. -/
theorem calculateAverageMetrics_constants (rows : List EngRow)
    (avg : AvgMetrics) (h : calculateAverageMetrics rows = some avg) :
    avg.prsPerWeek = 20 ∧ avg.conflictRate = 0.12 ∧
      avg.avgConflictResolution = 45 := by
  unfold calculateAverageMetrics at h
  split at h
  · simp at h
  · simp only [Option.some.injEq] at h
    subst h
    exact ⟨rfl, rfl, rfl⟩

/-- Case analysis on a successful `identifyBottlenecks` run: either the
window was empty, or the findings are the rules applied to the averages. -/
theorem identifyBottlenecks_cases (rows : List EngRow) (l : List Bottleneck)
    (h : identifyBottlenecks rows = some l) :
    l = [] ∨ ∃ avg, calculateAverageMetrics rows = some avg ∧
      l = bottleneckRules avg := by
  unfold identifyBottlenecks at h
  split at h
  · injection h with h
    exact Or.inl h.symm
  · right
    cases hA : calculateAverageMetrics rows with
    | none => rw [hA] at h; simp at h
    | some avg =>
      rw [hA] at h
      simp only [Option.map_some'] at h
      injection h with h
      exact ⟨avg, rfl, h.symm⟩

/-- Every finding of `bottleneckRules` comes from exactly one of the three
rules, with its guard holding and its cost the rule's cost expression. -/
theorem mem_bottleneckRules (b : Bottleneck) (avg : AvgMetrics)
    (hb : b ∈ bottleneckRules avg) :
    (avg.code_review_time > 240 ∧ b.type = BottleneckType.long_pr_review ∧
      b.estimatedCost =
        (avg.code_review_time / 60 - 2) * DEFAULT_HOURLY_COST * avg.prsPerWeek) ∨
    (avg.conflictRate > 0.15 ∧ b.type = BottleneckType.merge_conflicts ∧
      b.estimatedCost = avg.conflictRate * avg.prsPerWeek *
        (avg.avgConflictResolution / 60) * DEFAULT_HOURLY_COST) ∨
    (avg.cycle_time > 48 ∧ b.type = BottleneckType.slow_ci ∧
      b.estimatedCost =
        (avg.cycle_time - 24) / 24 * DEFAULT_HOURLY_COST * avg.prsPerWeek) := by
  unfold bottleneckRules at hb
  rcases List.mem_append.mp hb with hb | hb
  · rcases List.mem_append.mp hb with hb | hb
    · by_cases h1 : avg.code_review_time > 240
      · rw [if_pos h1] at hb
        simp only [List.mem_singleton] at hb
        subst hb
        exact Or.inl ⟨h1, rfl, rfl⟩
      · rw [if_neg h1] at hb
        exact absurd hb (List.not_mem_nil b)
    · by_cases h2 : avg.conflictRate > 0.15
      · rw [if_pos h2] at hb
        simp only [List.mem_singleton] at hb
        subst hb
        exact Or.inr (Or.inl ⟨h2, rfl, rfl⟩)
      · rw [if_neg h2] at hb
        exact absurd hb (List.not_mem_nil b)
  · by_cases h3 : avg.cycle_time > 48
    · rw [if_pos h3] at hb
      simp only [List.mem_singleton] at hb
      subst hb
      exact Or.inr (Or.inr ⟨h3, rfl, rfl⟩)
    · rw [if_neg h3] at hb
      exact absurd hb (List.not_mem_nil b)

/-- Under each rule's guard, its cost expression is non-negative, provided
the auxiliary rates attached to the averages are non-negative. -/
theorem bottleneckRules_cost_nonneg (avg : AvgMetrics)
    (hpw : 0 ≤ avg.prsPerWeek) (hcr : 0 ≤ avg.conflictRate)
    (har : 0 ≤ avg.avgConflictResolution) :
    ∀ b ∈ bottleneckRules avg, 0 ≤ b.estimatedCost := by
  have h75 : (0 : ℚ) ≤ DEFAULT_HOURLY_COST := by norm_num [DEFAULT_HOURLY_COST]
  intro b hb
  rcases mem_bottleneckRules b avg hb with ⟨h1, _, hc⟩ | ⟨h2, _, hc⟩ | ⟨h3, _, hc⟩
  · rw [hc]
    have h4 : (0 : ℚ) ≤ avg.code_review_time / 60 - 2 := by linarith
    exact mul_nonneg (mul_nonneg h4 h75) hpw
  · rw [hc]
    have h4 : (0 : ℚ) ≤ avg.avgConflictResolution / 60 :=
      div_nonneg har (by norm_num)
    exact mul_nonneg (mul_nonneg (mul_nonneg hcr hpw) h4) h75
  · rw [hc]
    have h4 : (0 : ℚ) ≤ (avg.cycle_time - 24) / 24 := by linarith
    exact mul_nonneg (mul_nonneg h4 h75) hpw

/-- **C6.** With zero `EngineeringSample` records, `identifyBottlenecks`
returns the empty sequence immediately; and on no input does it reach the
division-by-zero outcome (`none`) of `calculateAverageMetrics`, because the
empty-window guard precedes the averaging. -/
theorem bottlenecks_empty_guard :
    identifyBottlenecks [] = some [] ∧
    ∀ rows, (identifyBottlenecks rows).isSome = true := by
  refine ⟨rfl, fun rows => ?_⟩
  unfold identifyBottlenecks
  split
  · rfl
  · rename_i hlen
    unfold calculateAverageMetrics
    rw [if_neg hlen]
    rfl

/-- **C7.** All threshold comparisons are strict: averaged metrics sitting
exactly on the thresholds 240 (review minutes), 48 (cycle hours) and 0.15
(conflict rate) trigger no rule — both at the rules stage and through
`identifyBottlenecks` on a window averaging exactly 240/48 — and exactly
480 review minutes or a 0.25 conflict rate yields impact `medium`, not
`high`. -/
theorem bottleneck_thresholds_strict (pw acr pm : ℚ) :
    bottleneckRules ⟨240, 48, pm, pw, 0.15, acr⟩ = [] ∧
    (bottleneckRules ⟨480, 48, pm, pw, 0.25, acr⟩).map Bottleneck.type =
      [BottleneckType.long_pr_review, BottleneckType.merge_conflicts] ∧
    (bottleneckRules ⟨480, 48, pm, pw, 0.25, acr⟩).map Bottleneck.impact =
      [Impact.medium, Impact.medium] ∧
    identifyBottlenecks [⟨some 240, some 48, some pm⟩] = some [] := by
  refine ⟨?_, ?_, ?_, ?_⟩ <;>
    norm_num [bottleneckRules, identifyBottlenecks, calculateAverageMetrics,
      jsOrOpt]

/-- Folding an addition over a replicated row sums `n` copies. -/
theorem foldl_add_replicate (f : EngRow → ℚ) (row : EngRow) (n : ℕ) :
    ∀ a : ℚ, List.foldl (fun acc r => acc + f r) a (List.replicate n row) =
      a + n * f row := by
  induction n with
  | zero => intro a; simp
  | succ n ih =>
    intro a
    rw [List.replicate_succ, List.foldl_cons, ih]
    push_cast
    ring

/-- **C8 counterexample.** A 30-sample window averaging
`codeReviewMinutes = 500` and `cycleTimeHours = 60` does NOT produce three
findings: the conflict rate is the hardcoded `0.12` (never `0.30`), so the
`merge_conflicts` rule cannot fire and `identifyBottlenecks` returns only
`[long_pr_review, slow_ci]`. -/
theorem bottleneck_scenario_d_cex :
    (identifyBottlenecks
        (List.replicate 30 ⟨some 500, some 60, some 0⟩)).map
      (fun l => l.map Bottleneck.type) =
      some [BottleneckType.long_pr_review, BottleneckType.slow_ci] := by
  have h : identifyBottlenecks (List.replicate 30 ⟨some 500, some 60, some 0⟩)
      = some (bottleneckRules ⟨500, 60, 0, 20, 0.12, 45⟩) := by
    unfold identifyBottlenecks calculateAverageMetrics
    norm_num [foldl_add_replicate, jsOrOpt]
  rw [h]
  norm_num [bottleneckRules]

/-- **C8 (amended).** At the threshold-rule stage, averages with
`codeReviewMinutes = 500`, `conflictRate = 0.30`, `cycleTimeHours = 60`
yield three findings, all `high`, in the fixed order
`[long_pr_review, merge_conflicts, slow_ci]`; through `identifyBottlenecks`
the conflict rate is the hardcoded `0.12`, so such a window yields only
`[long_pr_review, slow_ci]`; and in general the findings are always a
subsequence of the fixed rule-evaluation order, never sorted by cost or
impact. -/
theorem bottleneck_scenario_d (pw acr pm : ℚ) :
    (bottleneckRules ⟨500, 60, pm, pw, 0.30, acr⟩).map Bottleneck.type =
      [BottleneckType.long_pr_review, BottleneckType.merge_conflicts,
        BottleneckType.slow_ci] ∧
    (bottleneckRules ⟨500, 60, pm, pw, 0.30, acr⟩).map Bottleneck.impact =
      [Impact.high, Impact.high, Impact.high] ∧
    (identifyBottlenecks
        (List.replicate 30 ⟨some 500, some 60, some 0⟩)).map
      (fun l => l.map Bottleneck.type) =
      some [BottleneckType.long_pr_review, BottleneckType.slow_ci] ∧
    ∀ avg, List.Sublist ((bottleneckRules avg).map Bottleneck.type)
      [BottleneckType.long_pr_review, BottleneckType.merge_conflicts,
        BottleneckType.slow_ci] := by
  have h : identifyBottlenecks (List.replicate 30 ⟨some 500, some 60, some 0⟩)
      = some (bottleneckRules ⟨500, 60, 0, 20, 0.12, 45⟩) := by
    unfold identifyBottlenecks calculateAverageMetrics
    norm_num [foldl_add_replicate, jsOrOpt]
  refine ⟨?_, ?_, ?_, fun avg => ?_⟩
  · norm_num [bottleneckRules]
  · norm_num [bottleneckRules]
  · rw [h]
    norm_num [bottleneckRules]
  · unfold bottleneckRules
    split_ifs <;> simp_all

/-- **C9.** Every finding returned by `identifyBottlenecks` has a
non-negative `estimatedCost`: each rule's guard makes its cost expression a
product of non-negative factors, given the non-negative hardcoded rates. -/
theorem bottleneck_cost_nonneg (rows : List EngRow) (l : List Bottleneck)
    (h : identifyBottlenecks rows = some l) :
    ∀ b ∈ l, 0 ≤ b.estimatedCost := by
  rcases identifyBottlenecks_cases rows l h with rfl | ⟨avg, hA, rfl⟩
  · simp
  · obtain ⟨h20, h12, h45⟩ := calculateAverageMetrics_constants rows avg hA
    exact bottleneckRules_cost_nonneg avg (by rw [h20]; norm_num)
      (by rw [h12]; norm_num) (by rw [h45]; norm_num)

/-- Witness for `bottleneck_cost_nonneg` on a one-row window that triggers
both the `long_pr_review` and the `slow_ci` rules. -/
theorem bottleneck_cost_nonneg_witness :
    0 ≤ (Bottleneck.mk BottleneckType.long_pr_review Impact.medium 4500
      "Implement automated code review tools and set review SLAs").estimatedCost :=
  bottleneck_cost_nonneg [⟨some 300, some 60, some 0⟩]
    (bottleneckRules ⟨300, 60, 0, 20, 0.12, 45⟩)
    (by unfold identifyBottlenecks calculateAverageMetrics
        norm_num [jsOrOpt])
    (Bottleneck.mk BottleneckType.long_pr_review Impact.medium 4500
      "Implement automated code review tools and set review SLAs")
    (by norm_num [bottleneckRules, DEFAULT_HOURLY_COST])

/-- **C10.** `identifyBottlenecks` can never return a `merge_conflicts`
finding: the conflict rate it tests is the hardcoded placeholder `0.12`,
which is not greater than the `0.15` threshold, so that branch is
unreachable. -/
theorem merge_conflicts_unreachable (rows : List EngRow)
    (l : List Bottleneck) (h : identifyBottlenecks rows = some l) :
    ∀ b ∈ l, b.type ≠ BottleneckType.merge_conflicts := by
  rcases identifyBottlenecks_cases rows l h with rfl | ⟨avg, hA, rfl⟩
  · simp
  · intro b hb
    obtain ⟨h20, h12, h45⟩ := calculateAverageMetrics_constants rows avg hA
    rcases mem_bottleneckRules b avg hb with ⟨_, ht, _⟩ | ⟨hgt, _, _⟩ |
      ⟨_, ht, _⟩
    · rw [ht]
      decide
    · rw [h12] at hgt
      norm_num at hgt
    · rw [ht]
      decide

/-- Witness for `merge_conflicts_unreachable` on a one-row window whose
averages trigger both reachable rules. -/
theorem merge_conflicts_unreachable_witness :
    (Bottleneck.mk BottleneckType.slow_ci Impact.high 2250
      "Optimize CI/CD pipeline and implement parallel testing").type ≠
      BottleneckType.merge_conflicts :=
  merge_conflicts_unreachable [⟨some 500, some 60, some 10⟩]
    (bottleneckRules ⟨500, 60, 10, 20, 0.12, 45⟩)
    (by unfold identifyBottlenecks calculateAverageMetrics
        norm_num [jsOrOpt])
    (Bottleneck.mk BottleneckType.slow_ci Impact.high 2250
      "Optimize CI/CD pipeline and implement parallel testing")
    (by norm_num [bottleneckRules, DEFAULT_HOURLY_COST])

end GitFlow
